import Mathlib

/-!
Shallow embedding of the Ollama MCP server (src/index.ts): the tool dispatcher,
the process-backed handlers (child_process.exec of `ollama ...`), the HTTP-backed
handlers (axios POST to the daemon generate endpoint), the streaming transform,
and the chat-completion adapter.  External collaborators (Node child_process,
axios, JSON.parse, the system clock) are modelled as oracles/parameters; every
piece of control flow below is translated from the repository source.
-/

namespace OllamaMcp

/-- Error codes of the MCP SDK (`ErrorCode` in @modelcontextprotocol/sdk/types),
the codes an `McpError` can carry in the source. -/
inductive ErrorCode
  | connectionClosed
  | requestTimeout
  | parseError
  | invalidRequest
  | methodNotFound
  | invalidParams
  | internalError
deriving DecidableEq, Repr

/-- A fault crossing the dispatcher boundary: an `McpError` value, i.e. a code
from the SDK's closed enumeration plus a human-readable message. -/
structure Fault where
  code : ErrorCode
  message : String
deriving DecidableEq, Repr

/-- Modelled from the spec: the closed fault-code set of spec section 3/7,
`not-found | invalid-argument | backend-error | internal-error`.  Used only to
compare the source's SDK codes against the code names the spec uses. -/
inductive SpecFaultCode
  | notFound
  | invalidArgument
  | backendError
  | internalError
deriving DecidableEq, Repr

/-- Modelled from the spec: the name-level correspondence between the SDK error
codes the source emits and the spec's closed fault-code set (method-not-found is
the spec's not-found, invalid-params its invalid-argument, internal-error its
internal-error; the remaining SDK codes have no spec counterpart, and the spec's
backend-error names no SDK code). -/
def specCodeOf : ErrorCode → Option SpecFaultCode
  | .methodNotFound => some .notFound
  | .invalidParams => some .invalidArgument
  | .internalError => some .internalError
  | _ => none

/-- A thrown JavaScript value as the catch blocks see it: an `McpError`, some
other `Error` instance (carrying its `.message`), or a non-Error value
(carrying its `String(...)` rendering). -/
inductive Thrown
  | mcp (f : Fault)
  | jsErr (msg : String)
  | other (s : String)
deriving DecidableEq, Repr

/-- `formatError` from src/index.ts: `error.message` for `Error` instances
(an `McpError` is an `Error`, so its message is returned), `String(error)`
otherwise. -/
def formatError : Thrown → String
  | .mcp f => f.message
  | .jsErr m => m
  | .other s => s

/-! ## Process invoker (child_process.exec backed handlers) -/

/-- Outcome of one `execAsync(cmd)` call, decided by the environment:
success with captured stdout/stderr, rejection for a non-zero exit (carrying
the captured stderr), or a spawn failure (carrying the Error message). -/
inductive ExecOutcome
  | success (stdout stderr : String)
  | failure (exitCode : Nat) (stderr : String)
  | spawnError (msg : String)
deriving DecidableEq, Repr

/-- Modelled from Node's child_process.exec semantics: the rejection `Error`
for a non-zero exit carries the message `Command failed: <cmd>\n<stderr>`. -/
def execFailureMessage (cmd stderr : String) : String :=
  "Command failed: " ++ cmd ++ "\n" ++ stderr

/-- `await execAsync(cmd)` as the handlers see it: the resolved
`{stdout, stderr}` pair, or the rejection as a thrown `Error`. -/
def execAsync (cmd : String) : ExecOutcome → Except Thrown (String × String)
  | .success out err => .ok (out, err)
  | .failure _ stderr => .error (.jsErr (execFailureMessage cmd stderr))
  | .spawnError m => .error (.jsErr m)

/-! ## Response envelope -/

/-- A content block of the response envelope.  A text block carries a string;
a stream block carries the stream the `run` handler builds: we represent the
stream extensionally by the chunk sequence it eventually emits (each chunk is
the `response` field of a decoded fragment, `none` standing for the JavaScript
`undefined` value) together with its terminal event (`none` = clean end,
`some f` = the stream errored with fault `f`). -/
inductive ContentBlock
  | text (t : String)
  | stream (emitted : List (Option String)) (terminal : Option Fault)
deriving DecidableEq, Repr

/-- The uniform success envelope: an ordered list of content blocks. -/
structure Envelope where
  content : List ContentBlock
deriving DecidableEq, Repr

/-- The shared body of every process-backed handler in src/index.ts:
`try { const {stdout, stderr} = await execAsync(cmd); return { content:
[{ type: 'text', text: stdout || stderr }] } } catch (error) { throw new
McpError(ErrorCode.InternalError, wrapMsg + ': ' + formatError(error)) }`.
`stdout || stderr` picks stderr exactly when stdout is the empty string
(the falsy case). -/
def runProcessTool (cmd wrapMsg : String) (outcome : ExecOutcome) :
    Except Fault Envelope :=
  match execAsync cmd outcome with
  | .ok (stdout, stderr) =>
      .ok ⟨[.text (if stdout = "" then stderr else stdout)]⟩
  | .error e =>
      .error ⟨.internalError, wrapMsg ++ ": " ++ formatError e⟩

/-- Command string built by handleServe. -/
def serveCommand : String := "ollama serve"

/-- Command string built by handleCreate:
naive template interpolation `ollama create ${args.name} -f ${args.modelfile}`. -/
def createCommand (name modelfile : String) : String :=
  "ollama create " ++ name ++ " -f " ++ modelfile

/-- Command string built by handleShow: base `ollama show ${args.name}`, then
`--${args.show_flag}` when the flag is truthy (a non-empty string), then
`--verbose` when the verbose flag is truthy. -/
def showCommand (name : String) (flag : Option String) (verbose : Bool) :
    String :=
  let base := "ollama show " ++ name
  let withFlag :=
    match flag with
    | some f => if f = "" then base else base ++ " --" ++ f
    | none => base
  if verbose then withFlag ++ " --verbose" else withFlag

/-- Command string built by handlePull. -/
def pullCommand (name : String) : String := "ollama pull " ++ name

/-- Command string built by handlePush. -/
def pushCommand (name : String) : String := "ollama push " ++ name

/-- Command string built by handleList. -/
def listCommand : String := "ollama list"

/-- Command string built by handleCopy:
`ollama cp ${args.source} ${args.destination}`. -/
def cpCommand (source destination : String) : String :=
  "ollama cp " ++ source ++ " " ++ destination

/-- Command string built by handleRemove. -/
def rmCommand (name : String) : String := "ollama rm " ++ name

/-- handleServe from src/index.ts. -/
def handleServe (o : ExecOutcome) : Except Fault Envelope :=
  runProcessTool serveCommand "Failed to start Ollama server" o

/-- handleCreate from src/index.ts. -/
def handleCreate (name modelfile : String) (o : ExecOutcome) :
    Except Fault Envelope :=
  runProcessTool (createCommand name modelfile) "Failed to create model" o

/-- handleShow from src/index.ts. -/
def handleShow (name : String) (flag : Option String) (verbose : Bool)
    (o : ExecOutcome) : Except Fault Envelope :=
  runProcessTool (showCommand name flag verbose) "Failed to show model info" o

/-- handlePull from src/index.ts. -/
def handlePull (name : String) (o : ExecOutcome) : Except Fault Envelope :=
  runProcessTool (pullCommand name) "Failed to pull model" o

/-- handlePush from src/index.ts. -/
def handlePush (name : String) (o : ExecOutcome) : Except Fault Envelope :=
  runProcessTool (pushCommand name) "Failed to push model" o

/-- handleList from src/index.ts. -/
def handleList (o : ExecOutcome) : Except Fault Envelope :=
  runProcessTool listCommand "Failed to list models" o

/-- handleCopy from src/index.ts. -/
def handleCopy (source destination : String) (o : ExecOutcome) :
    Except Fault Envelope :=
  runProcessTool (cpCommand source destination) "Failed to copy model" o

/-- handleRemove from src/index.ts. -/
def handleRemove (name : String) (o : ExecOutcome) : Except Fault Envelope :=
  runProcessTool (rmCommand name) "Failed to remove model" o

/-! ## HTTP invoker (axios backed handlers) -/

/-- `DEFAULT_TIMEOUT` from src/index.ts (milliseconds). -/
def DEFAULT_TIMEOUT : Nat := 60000

/-- The JavaScript expression `args.timeout || DEFAULT_TIMEOUT`: the supplied
value unless it is absent or falsy (0). -/
def effectiveTimeout : Option Nat → Nat
  | some v => if v = 0 then DEFAULT_TIMEOUT else v
  | none => DEFAULT_TIMEOUT

/-- A JSON value as it appears in the request bodies the handlers build
(`jsUndefined` models a key whose value is the JavaScript `undefined`). -/
inductive JsonVal
  | str (s : String)
  | num (q : ℚ)
  | bool (b : Bool)
  | jsUndefined
deriving DecidableEq, Repr

/-- The `OllamaGenerateResponse` interface of src/index.ts: the buffered
response body of the daemon generate endpoint. -/
structure GenerateResponse where
  model : String
  created_at : String
  response : String
  done : Bool
deriving DecidableEq, Repr

/-- Modelled from axios semantics: the message of the Error axios throws when
the configured timeout elapses, `timeout of <ms>ms exceeded`. -/
def axiosTimeoutMessage (ms : Nat) : String :=
  "timeout of " ++ toString ms ++ "ms exceeded"

/-- Outcome of one axios POST, decided by the environment.  `ok` resolves with
a response body of type `α`; `timeoutErr` is the abort after the configured
timeout elapsed; `httpError` is a non-2xx reply (optional `error` field of the
response body, plus the Error message); `networkError` is any other AxiosError
without a response; `thrownOther` is a non-axios throw. -/
inductive AxiosOutcome (α : Type)
  | ok (data : α)
  | timeoutErr
  | httpError (errorBody : Option String) (message : String)
  | networkError (message : String)
  | thrownOther (t : Thrown)
deriving DecidableEq, Repr

/-- The expression `error.response?.data?.error || error.message` from the
axios error branches of handleRun/handleChatCompletion: the `error` field of
the error response body when present and truthy (non-empty), else the Error
message. -/
def ollamaApiErrorText (errorBody : Option String) (message : String) :
    String :=
  match errorBody with
  | some e => if e = "" then message else e
  | none => message

/-! ## Streaming transform (handleRun) -/

/-- One chunk reaching the TransformStream of handleRun, pre-classified by the
outcome of `JSON.parse(chunk.toString())`: `json response done` when the parse
succeeded (fields absent in the parsed value are `none`, which models the
JavaScript `undefined` produced by the property access), `malformed errMsg`
when `JSON.parse` threw a SyntaxError with message `errMsg`.  Chunks are taken
to arrive one newline-delimited fragment per chunk, the scenario the spec
fixes (re-chunking by the platform transport is out of scope per spec
section 9). -/
inductive Fragment
  | json (response : Option String) (done : Option Bool)
  | malformed (errMsg : String)
deriving DecidableEq, Repr

/-- The `transform(chunk, controller)` body from handleRun: parse the chunk,
enqueue `json.response`; on a parse error, error the stream with
`new McpError(ErrorCode.InternalError, 'Error processing stream: ' +
formatError(error))`. -/
def transformFragment : Fragment → Except Fault (Option String)
  | .json r _ => .ok r
  | .malformed e =>
      .error ⟨.internalError, "Error processing stream: " ++ formatError (.jsErr e)⟩

/-- The TransformStream of handleRun run over a whole chunk sequence: the
chunks it enqueues in order, and its terminal event (`none` = source ended
cleanly, `some f` = the stream errored with `f`; once it errors, no later
chunk is processed). -/
def runTransformStream : List Fragment → List (Option String) × Option Fault
  | [] => ([], none)
  | f :: fs =>
      match transformFragment f with
      | .ok r =>
          let rest := runTransformStream fs
          (r :: rest.1, rest.2)
      | .error flt => ([], some flt)

/-- Arguments of the run tool. -/
structure RunArgs where
  name : String
  prompt : String
  timeout : Option Nat
deriving DecidableEq, Repr

/-- The request body handleRun posts to `${OLLAMA_HOST}/api/generate`:
`{ model: args.name, prompt: args.prompt, stream: true }`. -/
def runRequestBody (args : RunArgs) : List (String × JsonVal) :=
  [("model", .str args.name), ("prompt", .str args.prompt),
   ("stream", .bool true)]

/-- handleRun from src/index.ts.  On a resolved response, the envelope holds a
single stream block: the response byte stream piped through the transform.  On
an AxiosError the fault message is `Ollama API error: ` followed by
`error.response?.data?.error || error.message` (for a timeout there is no
response, and the Error message is the axios timeout message for the
configured timeout); on any other throw it is `Failed to run model: `
followed by `formatError(error)`. -/
def handleRun (args : RunArgs) (o : AxiosOutcome (List Fragment)) :
    Except Fault Envelope :=
  match o with
  | .ok frags =>
      let res := runTransformStream frags
      .ok ⟨[.stream res.1 res.2]⟩
  | .timeoutErr =>
      .error ⟨.internalError, "Ollama API error: " ++
        ollamaApiErrorText none (axiosTimeoutMessage (effectiveTimeout args.timeout))⟩
  | .httpError body msg =>
      .error ⟨.internalError, "Ollama API error: " ++ ollamaApiErrorText body msg⟩
  | .networkError msg =>
      .error ⟨.internalError, "Ollama API error: " ++ ollamaApiErrorText none msg⟩
  | .thrownOther t =>
      .error ⟨.internalError, "Failed to run model: " ++ formatError t⟩

/-! ## Chat-completion adapter (handleChatCompletion) -/

/-- A chat message as received by the chat_completion tool.  The role is kept
as a raw string: the handler's switch has a default branch for any other
value. -/
structure ChatMessage where
  role : String
  content : String
deriving DecidableEq, Repr

/-- One arm of the `msg.role` switch in handleChatCompletion: the rendering of
a single message into the flattened prompt. -/
def renderMessage (m : ChatMessage) : String :=
  match m.role with
  | "system" => "System: " ++ m.content ++ "\n"
  | "user" => "User: " ++ m.content ++ "\n"
  | "assistant" => "Assistant: " ++ m.content ++ "\n"
  | _ => ""

/-- `args.messages.map(...).join('')` from handleChatCompletion: the flattened
prompt. -/
def flattenMessages (ms : List ChatMessage) : String :=
  String.join (ms.map renderMessage)

/-- Arguments of the chat_completion tool as the handler reads them, plus the
`num_predict` member a caller may place in the argument bag (the handler never
reads it; it is carried here to state that fact). -/
structure ChatArgs where
  model : String
  messages : List ChatMessage
  temperature : Option ℚ
  timeout : Option Nat
  num_predict : Option Int
deriving DecidableEq, Repr

/-- The value stored under a body key whose source expression may be
`undefined` (axios/JSON.stringify later drops such keys). -/
def jsonOfOptNum : Option ℚ → JsonVal
  | some q => .num q
  | none => .jsUndefined

/-- The request body handleChatCompletion posts to
`${OLLAMA_HOST}/api/generate`: `{ model: args.model, prompt, stream: false,
temperature: args.temperature, raw: true }`.  These five keys are the whole
object literal; nothing else from the argument bag is forwarded. -/
def chatRequestBody (args : ChatArgs) : List (String × JsonVal) :=
  [("model", .str args.model),
   ("prompt", .str (flattenMessages args.messages)),
   ("stream", .bool false),
   ("temperature", jsonOfOptNum args.temperature),
   ("raw", .bool true)]

/-- The message object of the single choice. -/
structure ChatChoiceMessage where
  role : String
  content : String
deriving DecidableEq, Repr

/-- One element of the `choices` array. -/
structure ChatChoice where
  index : Nat
  message : ChatChoiceMessage
  finish_reason : String
deriving DecidableEq, Repr

/-- The chat-completion object handleChatCompletion builds on success. -/
structure ChatCompletion where
  id : String
  object : String
  created : Nat
  model : String
  choices : List ChatChoice
deriving DecidableEq, Repr

/-- The object literal of the success branch of handleChatCompletion, with the
clock abstracted: `nowMs` stands for `Date.now()` (milliseconds), so
`id = 'chatcmpl-' + Date.now()` and `created = Math.floor(Date.now()/1000)`
(natural division is the floor). -/
def mkChatCompletion (nowMs : Nat) (model response : String) :
    ChatCompletion :=
  { id := "chatcmpl-" ++ toString nowMs
  , object := "chat.completion"
  , created := nowMs / 1000
  , model := model
  , choices := [{ index := 0
                , message := { role := "assistant", content := response }
                , finish_reason := "stop" }] }

/-- Lowercase hexadecimal digit, for the `\u00XX` escapes of JSON.stringify. -/
def hexDigit (n : Nat) : String :=
  match n with
  | 0 => "0" | 1 => "1" | 2 => "2" | 3 => "3" | 4 => "4"
  | 5 => "5" | 6 => "6" | 7 => "7" | 8 => "8" | 9 => "9"
  | 10 => "a" | 11 => "b" | 12 => "c" | 13 => "d" | 14 => "e"
  | _ => "f"

/-- Modelled from JSON.stringify string escaping: quote and backslash get a
backslash, the named control escapes are used where they exist, any other
control character becomes `\u00XX`. -/
def jsonEscapeChar (c : Char) : String :=
  if c = '"' then "\\\""
  else if c = '\\' then "\\\\"
  else if c = '\x08' then "\\b"
  else if c = '\t' then "\\t"
  else if c = '\n' then "\\n"
  else if c = '\x0c' then "\\f"
  else if c = '\x0d' then "\\r"
  else if c.toNat < 32 then
    "\\u00" ++ hexDigit (c.toNat / 16) ++ hexDigit (c.toNat % 16)
  else String.singleton c

/-- A JSON string literal as JSON.stringify renders it. -/
def jsonQuote (s : String) : String :=
  "\"" ++ String.join (s.toList.map jsonEscapeChar) ++ "\""

/-- `JSON.stringify(choice, null, 2)` at nesting depth 2, specialised to the
fixed choice shape the handler builds (key order = insertion order). -/
def stringifyChoice (c : ChatChoice) : String :=
  "    \x7b\n" ++
  "      \"index\": " ++ toString c.index ++ ",\n" ++
  "      \"message\": \x7b\n" ++
  "        \"role\": " ++ jsonQuote c.message.role ++ ",\n" ++
  "        \"content\": " ++ jsonQuote c.message.content ++ "\n" ++
  "      \x7d,\n" ++
  "      \"finish_reason\": " ++ jsonQuote c.finish_reason ++ "\n" ++
  "    \x7d"

/-- The `choices` array as JSON.stringify renders it at depth 1. -/
def stringifyChoices (cs : List ChatChoice) : String :=
  match cs with
  | [] => "[]"
  | _ => "[\n" ++ String.intercalate ",\n" (cs.map stringifyChoice) ++ "\n  ]"

/-- `JSON.stringify(result, null, 2)` specialised to the fixed object shape of
the handler's success branch (key order = insertion order, two-space
indentation). -/
def stringifyChatCompletion (r : ChatCompletion) : String :=
  "\x7b\n" ++
  "  \"id\": " ++ jsonQuote r.id ++ ",\n" ++
  "  \"object\": " ++ jsonQuote r.object ++ ",\n" ++
  "  \"created\": " ++ toString r.created ++ ",\n" ++
  "  \"model\": " ++ jsonQuote r.model ++ ",\n" ++
  "  \"choices\": " ++ stringifyChoices r.choices ++ "\n" ++
  "\x7d"

/-- handleChatCompletion from src/index.ts.  On success the envelope holds one
text block whose text is the pretty-printed JSON of the chat-completion object
built from `Date.now()` (`nowMs`), the requested model and
`response.data.response`.  AxiosError branch: `Ollama API error: ` followed by
`error.response?.data?.error || error.message`; other throws:
`Unexpected error: ` followed by `formatError(error)`. -/
def handleChatCompletion (args : ChatArgs) (nowMs : Nat)
    (o : AxiosOutcome GenerateResponse) : Except Fault Envelope :=
  match o with
  | .ok data =>
      .ok ⟨[.text (stringifyChatCompletion
        (mkChatCompletion nowMs args.model data.response))]⟩
  | .timeoutErr =>
      .error ⟨.internalError, "Ollama API error: " ++
        ollamaApiErrorText none (axiosTimeoutMessage (effectiveTimeout args.timeout))⟩
  | .httpError body msg =>
      .error ⟨.internalError, "Ollama API error: " ++ ollamaApiErrorText body msg⟩
  | .networkError msg =>
      .error ⟨.internalError, "Ollama API error: " ++ ollamaApiErrorText none msg⟩
  | .thrownOther t =>
      .error ⟨.internalError, "Unexpected error: " ++ formatError t⟩

/-! ## Dispatcher (setupToolHandlers, CallToolRequestSchema handler) -/

/-- One inbound tool call together with the backend outcome the environment
decides for it: each constructor pairs the tool's arguments with the oracle
its backend needs.  `unknown` is a call whose tool name matches no case of the
switch. -/
inductive ToolCall
  | serve (o : ExecOutcome)
  | create (name modelfile : String) (o : ExecOutcome)
  | showTool (name : String) (flag : Option String) (verbose : Bool)
      (o : ExecOutcome)
  | run (args : RunArgs) (o : AxiosOutcome (List Fragment))
  | pull (name : String) (o : ExecOutcome)
  | push (name : String) (o : ExecOutcome)
  | listTool (o : ExecOutcome)
  | cp (source destination : String) (o : ExecOutcome)
  | rm (name : String) (o : ExecOutcome)
  | chat (args : ChatArgs) (nowMs : Nat) (o : AxiosOutcome GenerateResponse)
  | unknown (name : String)
deriving Repr

/-- `request.params.name` of a tool call. -/
def toolName : ToolCall → String
  | .serve _ => "serve"
  | .create _ _ _ => "create"
  | .showTool _ _ _ _ => "show"
  | .run _ _ => "run"
  | .pull _ _ => "pull"
  | .push _ _ => "push"
  | .listTool _ => "list"
  | .cp _ _ _ => "cp"
  | .rm _ _ => "rm"
  | .chat _ _ _ => "chat_completion"
  | .unknown n => n

/-- A handler's result as the try-block of the dispatcher sees it: the
handler's own throws are `McpError`s. -/
def liftMcp : Except Fault Envelope → Except Thrown Envelope
  | .ok env => .ok env
  | .error f => .error (.mcp f)

/-- The try-block of the CallToolRequest handler: the switch over
`request.params.name`, each case awaiting its handler, the default case
throwing `McpError(ErrorCode.MethodNotFound, 'Unknown tool: ' + name)`. -/
def dispatchSwitch (c : ToolCall) : Except Thrown Envelope :=
  let lift := liftMcp
  match c with
  | .serve o => lift (handleServe o)
  | .create name modelfile o => lift (handleCreate name modelfile o)
  | .showTool name flag verbose o => lift (handleShow name flag verbose o)
  | .run args o => lift (handleRun args o)
  | .pull name o => lift (handlePull name o)
  | .push name o => lift (handlePush name o)
  | .listTool o => lift (handleList o)
  | .cp source destination o => lift (handleCopy source destination o)
  | .rm name o => lift (handleRemove name o)
  | .chat args nowMs o => lift (handleChatCompletion args nowMs o)
  | .unknown n => .error (.mcp ⟨.methodNotFound, "Unknown tool: " ++ n⟩)

/-- The catch-block of the CallToolRequest handler: an `McpError` is rethrown
unchanged; anything else is wrapped as
`McpError(ErrorCode.InternalError, 'Error executing ' + name + ': ' +
formatError(error))`. -/
def dispatchCatch (name : String) :
    Except Thrown Envelope → Except Fault Envelope
  | .ok env => .ok env
  | .error (.mcp f) => .error f
  | .error e =>
      .error ⟨.internalError,
        "Error executing " ++ name ++ ": " ++ formatError e⟩

/-- The whole CallToolRequest handler: the switch wrapped by the catch. -/
def handleCallTool (c : ToolCall) : Except Fault Envelope :=
  dispatchCatch (toolName c) (dispatchSwitch c)

/-- What the caller may receive across the dispatcher boundary: a success
envelope, or a single fault whose code has a counterpart in the spec's closed
fault-code set and whose message is non-empty.  A raw thrown value is not
representable in the result type, so this predicate holding of the dispatcher
output is exactly the boundary invariant. -/
def WellFormedOutcome : Except Fault Envelope → Prop
  | .ok _ => True
  | .error f => (specCodeOf f.code).isSome = true ∧ f.message ≠ ""

/-- The fragment sequence of the spec's streaming test scenario,
`[{response:"He"}, {response:"llo"}, {done:true}]`, each fragment decoding
successfully. -/
def c4Frags : List Fragment :=
  [.json (some "He") none, .json (some "llo") none, .json none (some true)]

/-! ## Helper lemmas -/

theorem string_eq_empty_of_data {a : String} (h : a.data = []) : a = "" := by
  cases a with
  | mk d => subst h; rfl

theorem append_ne_empty_left {a : String} (b : String) (h : a ≠ "") :
    a ++ b ≠ "" := by
  intro hc
  apply h
  have hd := congrArg String.data hc
  rw [String.data_append] at hd
  rcases List.append_eq_nil.mp hd with ⟨ha, -⟩
  exact string_eq_empty_of_data ha

theorem string_append_left_cancel {a b c : String} (h : a ++ b = a ++ c) :
    b = c := by
  have hd := congrArg String.data h
  rw [String.data_append, String.data_append] at hd
  have := List.append_cancel_left hd
  cases b with
  | mk db =>
    cases c with
    | mk dc => simp_all

theorem join_cons (s : String) (l : List String) :
    String.join (s :: l) = s ++ String.join l := by
  have general : ∀ (l : List String) (init : String),
      l.foldl (· ++ ·) init = init ++ l.foldl (· ++ ·) "" := by
    intro l
    induction l with
    | nil => intro init; simp [List.foldl, String.append_empty]
    | cons x xs ih =>
        intro init
        simp only [List.foldl]
        rw [ih (init ++ x), ih ("" ++ x), String.empty_append,
          String.append_assoc]
  show (s :: l).foldl (· ++ ·) "" = s ++ l.foldl (· ++ ·) ""
  simp only [List.foldl]
  rw [general l ("" ++ s), String.empty_append]

theorem join_append (l₁ l₂ : List String) :
    String.join (l₁ ++ l₂) = String.join l₁ ++ String.join l₂ := by
  induction l₁ with
  | nil => simp [String.join, List.foldl, String.empty_append]
  | cons x xs ih =>
      rw [List.cons_append, join_cons, ih, join_cons, String.append_assoc]

theorem dispatchCatch_liftMcp (name : String) (r : Except Fault Envelope) :
    dispatchCatch name (liftMcp r) = r := by
  cases r <;> rfl

theorem wellFormed_runProcessTool (cmd wrap : String) (hw : wrap ++ ": " ≠ "")
    (o : ExecOutcome) : WellFormedOutcome (runProcessTool cmd wrap o) := by
  cases o with
  | success stdout stderr => trivial
  | failure code stderr =>
      exact ⟨rfl, append_ne_empty_left _ hw⟩
  | spawnError msg =>
      exact ⟨rfl, append_ne_empty_left _ hw⟩

theorem wellFormed_handleRun (args : RunArgs)
    (o : AxiosOutcome (List Fragment)) :
    WellFormedOutcome (handleRun args o) := by
  cases o with
  | ok frags => trivial
  | timeoutErr => exact ⟨rfl, append_ne_empty_left _ (by decide)⟩
  | httpError body msg => exact ⟨rfl, append_ne_empty_left _ (by decide)⟩
  | networkError msg => exact ⟨rfl, append_ne_empty_left _ (by decide)⟩
  | thrownOther t => exact ⟨rfl, append_ne_empty_left _ (by decide)⟩

theorem wellFormed_handleChatCompletion (args : ChatArgs) (nowMs : Nat)
    (o : AxiosOutcome GenerateResponse) :
    WellFormedOutcome (handleChatCompletion args nowMs o) := by
  cases o with
  | ok data => trivial
  | timeoutErr => exact ⟨rfl, append_ne_empty_left _ (by decide)⟩
  | httpError body msg => exact ⟨rfl, append_ne_empty_left _ (by decide)⟩
  | networkError msg => exact ⟨rfl, append_ne_empty_left _ (by decide)⟩
  | thrownOther t => exact ⟨rfl, append_ne_empty_left _ (by decide)⟩

/-- C1: every inbound tool call, whatever its backend outcome (argument
problems surfacing as throws, subprocess non-zero exit or spawn failure, HTTP
error status, timeout, stream-decode error, unknown tool, or any other
unanticipated throw), crosses the dispatcher boundary as either a well-formed
envelope or exactly one typed fault whose code has a counterpart in the closed
fault-code set and whose message is non-empty; no raw thrown value escapes. -/
theorem c1_dispatcher_boundary_faults (c : ToolCall) :
    WellFormedOutcome (handleCallTool c) := by
  cases c with
  | serve o =>
      rw [handleCallTool, dispatchSwitch, dispatchCatch_liftMcp]
      exact wellFormed_runProcessTool _ _ (by decide) o
  | create name modelfile o =>
      rw [handleCallTool, dispatchSwitch, dispatchCatch_liftMcp]
      exact wellFormed_runProcessTool _ _ (by decide) o
  | showTool name flag verbose o =>
      rw [handleCallTool, dispatchSwitch, dispatchCatch_liftMcp]
      exact wellFormed_runProcessTool _ _ (by decide) o
  | run args o =>
      rw [handleCallTool, dispatchSwitch, dispatchCatch_liftMcp]
      exact wellFormed_handleRun args o
  | pull name o =>
      rw [handleCallTool, dispatchSwitch, dispatchCatch_liftMcp]
      exact wellFormed_runProcessTool _ _ (by decide) o
  | push name o =>
      rw [handleCallTool, dispatchSwitch, dispatchCatch_liftMcp]
      exact wellFormed_runProcessTool _ _ (by decide) o
  | listTool o =>
      rw [handleCallTool, dispatchSwitch, dispatchCatch_liftMcp]
      exact wellFormed_runProcessTool _ _ (by decide) o
  | cp source destination o =>
      rw [handleCallTool, dispatchSwitch, dispatchCatch_liftMcp]
      exact wellFormed_runProcessTool _ _ (by decide) o
  | rm name o =>
      rw [handleCallTool, dispatchSwitch, dispatchCatch_liftMcp]
      exact wellFormed_runProcessTool _ _ (by decide) o
  | chat args nowMs o =>
      rw [handleCallTool, dispatchSwitch, dispatchCatch_liftMcp]
      exact wellFormed_handleChatCompletion args nowMs o
  | unknown n =>
      exact ⟨rfl, append_ne_empty_left _ (by decide)⟩

/-- C2: the code interpolates argument values into the shell command string
raw — the command handed to the shell for `create` with model name
`x; rm -rf ~` is the naive concatenation in which the metacharacters survive
unescaped, and likewise for `cp`; no escaping or rejection happens before the
command line is built. -/
theorem c2_create_command_interpolates_unescaped :
    createCommand "x; rm -rf ~" "Modelfile"
      = "ollama create x; rm -rf ~ -f Modelfile"
    ∧ cpCommand "a" "b; touch pwned" = "ollama cp a b; touch pwned" := by
  exact ⟨by decide, by decide⟩

/-- C3 counterexample: a `pull` whose subprocess exits with code 1 and stderr
`model not found` yields the one concrete fault below — its code is the SDK
internal-error, which corresponds to the spec's internal-error and not to the
spec's backend-error, refuting the claimed `backend-error` code (the message
does contain `model not found`). -/
theorem c3_counterexample :
    handlePull "llama2" (.failure 1 "model not found") =
      .error ⟨.internalError,
        "Failed to pull model: Command failed: ollama pull llama2\nmodel not found"⟩
    ∧ specCodeOf ErrorCode.internalError ≠ some SpecFaultCode.backendError := by
  exact ⟨rfl, by decide⟩

/-- C3 amended: for every process-backed operation, a subprocess non-zero exit
or spawn failure produces a fault with code internal-error whose message
carries the captured error text; in particular exit code 1 with stderr
`model not found` on `pull` yields an internal-error fault whose message
contains `model not found`. -/
theorem c3_process_failure_fault :
    (∀ cmd wrap code stderr, runProcessTool cmd wrap (.failure code stderr) =
        .error ⟨.internalError, wrap ++ ": " ++ execFailureMessage cmd stderr⟩)
    ∧ (∀ cmd wrap msg, runProcessTool cmd wrap (.spawnError msg) =
        .error ⟨.internalError, wrap ++ ": " ++ msg⟩)
    ∧ (∀ name code stderr, ∃ pre, handlePull name (.failure code stderr) =
        .error ⟨.internalError, pre ++ stderr⟩)
    ∧ (∃ pre post,
        "Failed to pull model: Command failed: ollama pull llama2\nmodel not found"
          = pre ++ "model not found" ++ post) := by
  refine ⟨fun cmd wrap code stderr => rfl, fun cmd wrap msg => rfl,
    fun name code stderr => ?_,
    "Failed to pull model: Command failed: ollama pull llama2\n", "", by decide⟩
  refine ⟨("Failed to pull model" ++ ": ")
    ++ (("Command failed: " ++ pullCommand name) ++ "\n"), ?_⟩
  exact congrArg
    (fun m => (Except.error ⟨ErrorCode.internalError, m⟩ : Except Fault Envelope))
    (String.append_assoc ("Failed to pull model" ++ ": ")
      (("Command failed: " ++ pullCommand name) ++ "\n") stderr).symm

/-- C4 counterexample: on the spec's fragment sequence
`[{response:"He"}, {response:"llo"}, {done:true}]` the transform emits a third
chunk — the `undefined` value obtained by reading `response` off the final
fragment — so the stream does not yield exactly `"He"` then `"llo"`; and a
decode failure errors the stream with the SDK internal-error code, which is
the spec's internal-error, not the claimed backend-error. -/
theorem c4_counterexample :
    runTransformStream c4Frags = ([some "He", some "llo", none], none)
    ∧ ([some "He", some "llo", none] : List (Option String))
        ≠ [some "He", some "llo"]
    ∧ transformFragment (.malformed "Unexpected end of JSON input") =
        .error ⟨.internalError,
          "Error processing stream: Unexpected end of JSON input"⟩
    ∧ specCodeOf ErrorCode.internalError ≠ some SpecFaultCode.backendError := by
  exact ⟨by decide, by decide, rfl, by decide⟩

/-- C4 amended: each fragment is decoded independently and its `response`
field is re-emitted (the `undefined` value when the field is absent), in
order, no fragment dropped or duplicated, and the stream then ends; a decode
failure on any fragment errors the whole stream with an internal-error fault
(`Error processing stream: ...`), dropping nothing emitted before it and
processing nothing after it.  On the spec's sequence the stream emits `"He"`,
`"llo"`, then the undefined chunk of the `{done:true}` fragment. -/
theorem c4_stream_transform :
    (∀ fields : List (Option String × Option Bool),
        runTransformStream (fields.map fun p => Fragment.json p.1 p.2)
          = (fields.map Prod.fst, none))
    ∧ (∀ (fields : List (Option String × Option Bool)) errMsg rest,
        runTransformStream
            ((fields.map fun p => Fragment.json p.1 p.2)
              ++ Fragment.malformed errMsg :: rest)
          = (fields.map Prod.fst,
             some ⟨.internalError, "Error processing stream: " ++ errMsg⟩))
    ∧ runTransformStream c4Frags = ([some "He", some "llo", none], none) := by
  refine ⟨fun fields => ?_, fun fields errMsg rest => ?_, by decide⟩
  · induction fields with
    | nil => rfl
    | cons p ps ih => simp [runTransformStream, transformFragment, ih]
  · induction fields with
    | nil => rfl
    | cons p ps ih => simp [runTransformStream, transformFragment, ih]

/-- C5 counterexample: a `run` call that hits the (default) timeout yields the
concrete fault below — its code is the SDK internal-error, corresponding to
the spec's internal-error and not to the claimed backend-error (the message
does identify the timeout). -/
theorem c5_counterexample :
    handleRun ⟨"gemma3:1b", "hi", none⟩ .timeoutErr =
      .error ⟨.internalError,
        "Ollama API error: timeout of 60000ms exceeded"⟩
    ∧ specCodeOf ErrorCode.internalError ≠ some SpecFaultCode.backendError := by
  exact ⟨rfl, by decide⟩

/-- C5 amended: every HTTP call is bound by a caller-suppliable timeout
defaulting to 60000 ms; exceeding it aborts the call and yields an
internal-error fault whose message (`Ollama API error: timeout of <t>ms
exceeded`) is distinguishable by content from a non-timeout network failure
(`Ollama API error: <message>`) whenever the network error message is not
itself the timeout phrase. -/
theorem c5_timeout_fault :
    DEFAULT_TIMEOUT = 60000
    ∧ effectiveTimeout none = DEFAULT_TIMEOUT
    ∧ (∀ t : Nat, t ≠ 0 → effectiveTimeout (some t) = t)
    ∧ (∀ args : RunArgs, handleRun args .timeoutErr =
        .error ⟨.internalError, "Ollama API error: "
          ++ axiosTimeoutMessage (effectiveTimeout args.timeout)⟩)
    ∧ (∀ (args : ChatArgs) nowMs, handleChatCompletion args nowMs .timeoutErr =
        .error ⟨.internalError, "Ollama API error: "
          ++ axiosTimeoutMessage (effectiveTimeout args.timeout)⟩)
    ∧ (∀ (args : RunArgs) msg, handleRun args (.networkError msg) =
        .error ⟨.internalError, "Ollama API error: " ++ msg⟩)
    ∧ (∀ (args : RunArgs) msg,
        msg ≠ axiosTimeoutMessage (effectiveTimeout args.timeout) →
          handleRun args .timeoutErr ≠ handleRun args (.networkError msg)) := by
  refine ⟨rfl, rfl, fun t ht => by simp [effectiveTimeout, ht],
    fun args => rfl, fun args nowMs => rfl, fun args msg => rfl,
    fun args msg hne heq => ?_⟩
  apply hne
  have hmsg : ("Ollama API error: "
      ++ axiosTimeoutMessage (effectiveTimeout args.timeout) : String)
      = "Ollama API error: " ++ msg := by
    have h2 := congrArg (fun r => match r with
      | Except.error (f : Fault) => f.message
      | Except.ok _ => "") heq
    simpa [handleRun, ollamaApiErrorText] using h2
  exact (string_append_left_cancel hmsg).symm

/-- C5 witness: the theorem applied at a caller-supplied timeout of 120000 ms
and at the concrete connection-refused network failure. -/
theorem c5_timeout_fault_witness :
    effectiveTimeout (some 120000) = 120000
    ∧ handleRun ⟨"m", "p", none⟩ .timeoutErr ≠
        handleRun ⟨"m", "p", none⟩
          (.networkError "connect ECONNREFUSED 127.0.0.1:11434") :=
  ⟨c5_timeout_fault.2.2.1 120000 (by decide),
   c5_timeout_fault.2.2.2.2.2.2 ⟨"m", "p", none⟩
     "connect ECONNREFUSED 127.0.0.1:11434" (by decide)⟩

theorem flattenMessages_single (m : ChatMessage) :
    flattenMessages [m] = renderMessage m := by
  rw [flattenMessages]
  show String.join [renderMessage m] = renderMessage m
  rw [join_cons]
  show renderMessage m ++ String.join [] = renderMessage m
  rw [show String.join [] = "" from rfl, String.append_empty]

/-- C6: the flattened prompt is built by concatenating, in list order,
`System: <content>\n`, `User: <content>\n` or `Assistant: <content>\n`
according to each message's role, a message with any other role contributing
the empty string without error; the spec's example flattens to exactly
`System: Be terse\nUser: 2+2?\n`. -/
theorem c6_flatten_prompt :
    (∀ ms₁ ms₂ : List ChatMessage,
        flattenMessages (ms₁ ++ ms₂)
          = flattenMessages ms₁ ++ flattenMessages ms₂)
    ∧ (∀ content, flattenMessages [⟨"system", content⟩]
        = "System: " ++ content ++ "\n")
    ∧ (∀ content, flattenMessages [⟨"user", content⟩]
        = "User: " ++ content ++ "\n")
    ∧ (∀ content, flattenMessages [⟨"assistant", content⟩]
        = "Assistant: " ++ content ++ "\n")
    ∧ (∀ role content, role ≠ "system" → role ≠ "user" → role ≠ "assistant" →
        flattenMessages [⟨role, content⟩] = "")
    ∧ flattenMessages [⟨"system", "Be terse"⟩, ⟨"user", "2+2?"⟩]
        = "System: Be terse\nUser: 2+2?\n" := by
  refine ⟨fun ms₁ ms₂ => ?_, fun content => flattenMessages_single _,
    fun content => flattenMessages_single _,
    fun content => flattenMessages_single _,
    fun role content h₁ h₂ h₃ => ?_, by decide⟩
  · rw [flattenMessages, flattenMessages, flattenMessages, List.map_append,
      join_append]
  · rw [flattenMessages_single]
    show renderMessage ⟨role, content⟩ = ""
    unfold renderMessage
    split <;> simp_all

/-- C6 witness: a message with the unknown role `tool` contributes nothing. -/
theorem c6_flatten_prompt_witness :
    flattenMessages [⟨"tool", "x"⟩] = "" :=
  c6_flatten_prompt.2.2.2.2.1 "tool" "x" (by decide) (by decide) (by decide)

/-- C7: a successful chat_completion returns the chat-completion object with
id `chatcmpl-` followed by the call's `Date.now()` value, creation timestamp
the current time in seconds (`Date.now()` milliseconds floor-divided by
1000), the requested model echoed back, and exactly one choice of index 0
whose message has role `assistant` and content the daemon's generated text,
with finish reason fixed to `stop`. -/
theorem c7_chat_completion_result (nowMs : Nat) (args : ChatArgs)
    (data : GenerateResponse) :
    handleChatCompletion args nowMs (.ok data) =
      .ok ⟨[.text (stringifyChatCompletion
        (mkChatCompletion nowMs args.model data.response))]⟩
    ∧ (mkChatCompletion nowMs args.model data.response).id
        = "chatcmpl-" ++ toString nowMs
    ∧ (mkChatCompletion nowMs args.model data.response).created = nowMs / 1000
    ∧ (mkChatCompletion nowMs args.model data.response).model = args.model
    ∧ (mkChatCompletion nowMs args.model data.response).object
        = "chat.completion"
    ∧ (mkChatCompletion nowMs args.model data.response).choices =
        [⟨0, ⟨"assistant", data.response⟩, "stop"⟩] :=
  ⟨rfl, rfl, rfl, rfl, rfl, rfl⟩

/-- C8: the generate request bodies contain no `num_predict` key at all — a
chat_completion call supplying `num_predict = -1` has it silently dropped
(the handler never reads it), and the `run` body carries neither a
temperature nor an output-length cap; only chat_completion's `temperature`
is forwarded verbatim. -/
theorem c8_num_predict_not_forwarded :
    ((chatRequestBody
        ⟨"gemma3:1b", [⟨"user", "hi"⟩], some 1, none, some (-1)⟩).map
          Prod.fst = ["model", "prompt", "stream", "temperature", "raw"])
    ∧ "num_predict" ∉ (chatRequestBody
        ⟨"gemma3:1b", [⟨"user", "hi"⟩], some 1, none, some (-1)⟩).map Prod.fst
    ∧ ((runRequestBody ⟨"m", "p", none⟩).map Prod.fst
        = ["model", "prompt", "stream"])
    ∧ "temperature" ∉ (runRequestBody ⟨"m", "p", none⟩).map Prod.fst
    ∧ (∀ args : ChatArgs, (chatRequestBody args).lookup "temperature"
        = some (jsonOfOptNum args.temperature)) := by
  refine ⟨by decide, by decide, by decide, by decide, fun args => ?_⟩
  simp +decide [chatRequestBody, List.lookup]

set_option maxRecDepth 8192 in
/-- C9 counterexample: a buffered success with daemon payload
`{response:"hi", done:true}` yields an envelope whose single text block is
the pretty-printed JSON of the whole chat-completion object — the concrete
string below — and not the bare string `hi`. -/
theorem c9_counterexample :
    handleChatCompletion ⟨"m", [], none, none, none⟩ 0
        (.ok ⟨"m", "2025-01-01T00:00:00Z", "hi", true⟩) =
      .ok ⟨[.text (stringifyChatCompletion (mkChatCompletion 0 "m" "hi"))]⟩
    ∧ stringifyChatCompletion (mkChatCompletion 0 "m" "hi") =
        "\x7b\n  \"id\": \"chatcmpl-0\",\n  \"object\": \"chat.completion\",\n  \"created\": 0,\n  \"model\": \"m\",\n  \"choices\": [\n    \x7b\n      \"index\": 0,\n      \"message\": \x7b\n        \"role\": \"assistant\",\n        \"content\": \"hi\"\n      \x7d,\n      \"finish_reason\": \"stop\"\n    \x7d\n  ]\n\x7d"
    ∧ stringifyChatCompletion (mkChatCompletion 0 "m" "hi") ≠ "hi" := by
  exact ⟨rfl, by decide, by decide⟩

/-- C9 amended: the buffered call sends a single request with `stream=false`,
awaits the full JSON response, and extracts the generated text field; the
success envelope holds exactly one text block whose text is the JSON
serialization of the chat-completion object whose sole choice's message
content is the extracted text (so for payload `{response:"hi", done:true}`
the block carries the serialized object embedding `hi`, not `hi` itself). -/
theorem c9_buffered_mode :
    (∀ args : ChatArgs, (chatRequestBody args).lookup "stream"
        = some (.bool false))
    ∧ (∀ (args : ChatArgs) (nowMs : Nat) (data : GenerateResponse),
        handleChatCompletion args nowMs (.ok data) =
          .ok ⟨[.text (stringifyChatCompletion
            (mkChatCompletion nowMs args.model data.response))]⟩)
    ∧ (∀ (nowMs : Nat) (model resp : String),
        ((mkChatCompletion nowMs model resp).choices.map
          fun ch => ch.message.content) = [resp]) := by
  refine ⟨fun args => ?_, fun args nowMs data => rfl,
    fun nowMs model resp => rfl⟩
  simp +decide [chatRequestBody, List.lookup]

theorem runProcessTool_ok (cmd wrap : String) (o : ExecOutcome)
    (env : Envelope) (h : runProcessTool cmd wrap o = .ok env) :
    ∃ t, env = ⟨[.text t]⟩ := by
  cases o with
  | success out err =>
      exact ⟨if out = "" then err else out, (Except.ok.inj h).symm⟩
  | failure code stderr => exact absurd h (by simp [runProcessTool, execAsync])
  | spawnError msg => exact absurd h (by simp [runProcessTool, execAsync])

/-- C10: every successful call returns an envelope with exactly one content
block — a text block for every process-backed operation and for
chat_completion, a stream block for run; no handler returns an empty content
list or more than one block. -/
theorem c10_single_content_block (c : ToolCall) (env : Envelope)
    (h : handleCallTool c = .ok env) :
    ∃ b, env.content = [b] ∧
      (match c with
       | .run _ _ => ∃ emitted terminal, ContentBlock.stream emitted terminal = b
       | .unknown _ => False
       | _ => ∃ s, ContentBlock.text s = b) := by
  cases c with
  | serve o =>
      rw [handleCallTool, dispatchSwitch, dispatchCatch_liftMcp] at h
      obtain ⟨t, rfl⟩ := runProcessTool_ok _ _ o env h
      exact ⟨.text t, rfl, t, rfl⟩
  | create name modelfile o =>
      rw [handleCallTool, dispatchSwitch, dispatchCatch_liftMcp] at h
      obtain ⟨t, rfl⟩ := runProcessTool_ok _ _ o env h
      exact ⟨.text t, rfl, t, rfl⟩
  | showTool name flag verbose o =>
      rw [handleCallTool, dispatchSwitch, dispatchCatch_liftMcp] at h
      obtain ⟨t, rfl⟩ := runProcessTool_ok _ _ o env h
      exact ⟨.text t, rfl, t, rfl⟩
  | run args o =>
      rw [handleCallTool, dispatchSwitch, dispatchCatch_liftMcp] at h
      cases o with
      | ok frags =>
          refine ⟨.stream (runTransformStream frags).1
            (runTransformStream frags).2, ?_, _, _, rfl⟩
          rw [← Except.ok.inj h]
      | timeoutErr => exact absurd h (by simp [handleRun])
      | httpError body msg => exact absurd h (by simp [handleRun])
      | networkError msg => exact absurd h (by simp [handleRun])
      | thrownOther t => exact absurd h (by simp [handleRun])
  | pull name o =>
      rw [handleCallTool, dispatchSwitch, dispatchCatch_liftMcp] at h
      obtain ⟨t, rfl⟩ := runProcessTool_ok _ _ o env h
      exact ⟨.text t, rfl, t, rfl⟩
  | push name o =>
      rw [handleCallTool, dispatchSwitch, dispatchCatch_liftMcp] at h
      obtain ⟨t, rfl⟩ := runProcessTool_ok _ _ o env h
      exact ⟨.text t, rfl, t, rfl⟩
  | listTool o =>
      rw [handleCallTool, dispatchSwitch, dispatchCatch_liftMcp] at h
      obtain ⟨t, rfl⟩ := runProcessTool_ok _ _ o env h
      exact ⟨.text t, rfl, t, rfl⟩
  | cp source destination o =>
      rw [handleCallTool, dispatchSwitch, dispatchCatch_liftMcp] at h
      obtain ⟨t, rfl⟩ := runProcessTool_ok _ _ o env h
      exact ⟨.text t, rfl, t, rfl⟩
  | rm name o =>
      rw [handleCallTool, dispatchSwitch, dispatchCatch_liftMcp] at h
      obtain ⟨t, rfl⟩ := runProcessTool_ok _ _ o env h
      exact ⟨.text t, rfl, t, rfl⟩
  | chat args nowMs o =>
      rw [handleCallTool, dispatchSwitch, dispatchCatch_liftMcp] at h
      cases o with
      | ok data =>
          refine ⟨.text (stringifyChatCompletion
            (mkChatCompletion nowMs args.model data.response)), ?_, _, rfl⟩
          rw [← Except.ok.inj h]
      | timeoutErr => exact absurd h (by simp [handleChatCompletion])
      | httpError body msg =>
          exact absurd h (by simp [handleChatCompletion])
      | networkError msg => exact absurd h (by simp [handleChatCompletion])
      | thrownOther t => exact absurd h (by simp [handleChatCompletion])
  | unknown n =>
      exact absurd h (by simp [handleCallTool, dispatchSwitch, dispatchCatch])

/-- C10 witness: a successful `list` call with captured stdout `NAME SIZE`
yields the one-text-block envelope. -/
theorem c10_single_content_block_witness :
    ∃ b, (Envelope.mk [.text "NAME SIZE"]).content = [b]
      ∧ ∃ s, ContentBlock.text s = b :=
  c10_single_content_block (.listTool (.success "NAME SIZE" ""))
    ⟨[.text "NAME SIZE"]⟩ rfl

end OllamaMcp

